import Mathlib

/-!
Verification of the agent-graph-jira workflow controller and its collaborators.

The Python sources are embedded shallowly:
  * `Story` / `GlobalDefaults` model the configuration dictionaries consumed via
    `dict.get` (an `Option` field is `none` exactly when the key is absent);
  * `JValue` models the JSON-ish dictionaries passed to the JIRA client;
  * each LangGraph node of `JiraAgent` becomes a pure step function on
    `AgentState`, network collaborators become oracle functions in `Env`, and
    the compiled graph becomes a fuel-bounded runner following the exact
    `add_edge` wiring of `JiraAgent._build_graph`.
Python truthiness (`if not state.current_story:` etc.) is modelled explicitly
by the `pyTruthy*` helpers.
-/

namespace AgentGraphJira

/-- JSON-like values, as produced for the JIRA REST payloads. A Python `dict`
is an association list (keys are unique in all payloads built here). -/
inductive JValue where
  | jstr : String → JValue
  | jbool : Bool → JValue
  | jlist : List JValue → JValue
  | jdict : List (String × JValue) → JValue
  | jnull : JValue

/-- A JIRA payload dictionary: `issue_data` in the Python sources. -/
abbrev JDict := List (String × JValue)

/-- `d.get(key)` / `key in d` on an association-list dictionary. -/
def jget : JDict → String → Option JValue
  | [], _ => none
  | (k, v) :: rest, key => if k = key then some v else jget rest key

/-- A story entry of the YAML configuration (`stories:` list).  Each field is
`some v` exactly when the corresponding key is present in the dictionary. -/
structure Story where
  title : Option String := none
  description : Option String := none
  priority : Option String := none
  labels : Option (List String) := none
  components : Option (List String) := none
  project : Option String := none
  issue_type : Option String := none
  epic : Option String := none
deriving DecidableEq

/-- The `global:` section of the YAML configuration (an untyped dictionary in
the source; the spec calls it GlobalDefaults). -/
structure GlobalDefaults where
  project : Option String := none
  labels : Option (List String) := none
  components : Option (List String) := none
  epic : Option String := none
deriving DecidableEq

/-- The loaded YAML configuration: `config.get("global", {})` and
`config.get("stories", [])` make the absent-key defaults part of the model. -/
structure Config where
  global_config : GlobalDefaults := {}
  stories : List Story := []

/-- Python truthiness of an `Optional[str]`: `None` and `""` are falsy. -/
def pyTruthyStr : Option String → Bool
  | none => false
  | some s => !s.isEmpty

/-- A story dictionary with no keys at all (`{}`), which is falsy in Python. -/
def Story.isBlankDict (st : Story) : Bool :=
  st.title.isNone && st.description.isNone && st.priority.isNone &&
  st.labels.isNone && st.components.isNone && st.project.isNone &&
  st.issue_type.isNone && st.epic.isNone

/-- Python truthiness of an `Optional[Dict]` story: `None` and `{}` are falsy. -/
def pyTruthyStory : Option Story → Bool
  | none => false
  | some st => !st.isBlankDict

/-! ### Prompt Builder (`StoryExpansionPrompt`) -/

/-- `base_prompt` up to the `Title:` placeholder (after `.strip()`). -/
def promptSeg0 : String :=
"You are an expert product manager and technical writer specializing in creating detailed, \nactionable user stories for software development teams.\n\nYour task is to expand the given story outline into a comprehensive JIRA story that includes:\n\n1. **Clear User Story**: A well-structured user story following the \"As a [user], I want [goal] so that [benefit]\" format\n2. **Detailed Description**: Comprehensive explanation of the feature/requirement\n3. **Acceptance Criteria**: Specific, testable criteria that define when the story is complete\n4. **Technical Considerations**: Any technical notes or considerations for implementation\n5. **Definition of Done**: Clear criteria for story completion\n\nGuidelines:\n- Write in clear, professional language\n- Make acceptance criteria specific and testable\n- Consider edge cases and error scenarios\n- Include relevant technical details without being overly prescriptive\n- Ensure the story is sized appropriately (not too large for a single sprint)\n\nOriginal Story Information:\nTitle: "

/-- Template text between the title and description placeholders. -/
def promptSeg1 : String := "\nDescription: "

/-- Template text between the description and priority placeholders. -/
def promptSeg2 : String := "\nPriority: "

/-- Template text between the priority and labels placeholders. -/
def promptSeg3 : String := "\nLabels: "

/-- Template text between the labels and components placeholders. -/
def promptSeg4 : String := "\nComponents: "

/-- Template text after the components placeholder. -/
def promptSeg5 : String := "\n\nPlease expand this into a comprehensive JIRA story following the structure above."

/-- `", ".join(xs) or "None"`: the comma join, with the literal `"None"` when
the join is the empty string (Python `or` tests string truthiness). -/
def joinOrNone (xs : List String) : String :=
  let j := String.intercalate ", " xs
  if j.isEmpty then "None" else j

/-- `StoryExpansionPrompt.generate_expansion_prompt`: substitute the story
fields (with their `dict.get` defaults) into the fixed template. -/
def generate_expansion_prompt (story : Story) : String :=
  promptSeg0 ++ (story.title.getD "Untitled Story") ++
  promptSeg1 ++ (story.description.getD "No description provided") ++
  promptSeg2 ++ (story.priority.getD "Medium") ++
  promptSeg3 ++ joinOrNone (story.labels.getD []) ++
  promptSeg4 ++ joinOrNone (story.components.getD []) ++
  promptSeg5

/-! ### JIRA client (`JiraClient`) -/

/-- ASCII apostrophe, used inside the validation error messages. -/
def sq : String := String.singleton (Char.ofNat 39)

/-- `ValueError` text for a missing required field (names the field). -/
def missingFieldMsg (f : String) : String :=
  "Required field " ++ sq ++ f ++ sq ++ " is missing from issue data"

/-- `ValueError` text for a malformed project field. -/
def projectShapeMsg : String :=
  "Project must be a dictionary with " ++ sq ++ "key" ++ sq ++ " field"

/-- `ValueError` text for a malformed issue-type field. -/
def issuetypeShapeMsg : String :=
  "Issue type must be a dictionary with " ++ sq ++ "name" ++ sq ++ " field"

/-- The required-field list of `JiraClient._validate_issue_data`. -/
def requiredFields : List String := ["project", "summary", "issuetype"]

/-- `JiraClient._validate_issue_data`: `some msg` when a `ValueError` is
raised, `none` when the data passes.  The field loop raises on the first
missing required field; then the project and issue-type shapes are checked. -/
def validate_issue_data (d : JDict) : Option String :=
  match requiredFields.find? (fun f => (jget d f).isNone) with
  | some f => some (missingFieldMsg f)
  | none =>
    match jget d "project" with
    | some (JValue.jdict pes) =>
      if (jget pes "key").isNone then some projectShapeMsg
      else
        match jget d "issuetype" with
        | some (JValue.jdict ies) =>
          if (jget ies "name").isNone then some issuetypeShapeMsg else none
        | _ => some issuetypeShapeMsg
    | _ => some projectShapeMsg

/-- What the remote tracker returns for a successful create call. -/
structure RemoteIssue where
  key : String
  id : String

/-- `JiraClient.create_issue`.  Result: the created-issue dictionary or the
propagated exception text, paired with the list of network create calls made
(at most one; empty exactly when validation failed before any network call). -/
def create_issue (remote : JDict → Except String RemoteIssue) (jira_url : String)
    (d : JDict) : Except String JDict × List JDict :=
  match validate_issue_data d with
  | some e => (Except.error e, [])
  | none =>
    match remote d with
    | Except.error e => (Except.error e, [d])
    | Except.ok issue =>
      (Except.ok [
        ("key", JValue.jstr issue.key),
        ("id", JValue.jstr issue.id),
        ("url", JValue.jstr (jira_url ++ "/browse/" ++ issue.key)),
        ("summary", (jget d "summary").getD JValue.jnull),
        ("project", (match jget d "project" with
          | some (JValue.jdict pes) => (jget pes "key").getD JValue.jnull
          | _ => JValue.jnull))], [d])

/-! ### Workflow controller (`JiraAgent`) -/

/-- `JiraAgent._prepare_issue_data`: derive the JIRA issue payload from a
story, the `global:` configuration section, and the expanded content.  Each
`story.get(k, global_config.get(k, default))` is `getD` on the `Option`
fields; the optional keys are appended only when their Python truthiness test
passes. -/
def prepare_issue_data (jira_project_key : String) (global_config : GlobalDefaults)
    (story : Story) (expanded_content : String) : JDict :=
  let project_key := story.project.getD (global_config.project.getD jira_project_key)
  let base : JDict := [
    ("project", JValue.jdict [("key", JValue.jstr project_key)]),
    ("summary", JValue.jstr (story.title.getD "Generated Story")),
    ("description", JValue.jstr expanded_content),
    ("issuetype", JValue.jdict [("name", JValue.jstr (story.issue_type.getD "Story"))])]
  let labels := story.labels.getD (global_config.labels.getD [])
  let withLabels := base ++
    (if labels.isEmpty then [] else [("labels", JValue.jlist (labels.map JValue.jstr))])
  let components := story.components.getD (global_config.components.getD [])
  let withComponents := withLabels ++
    (if components.isEmpty then []
     else [("components",
            JValue.jlist (components.map (fun c => JValue.jdict [("name", JValue.jstr c)])))])
  let epic_key := story.epic.orElse (fun _ => global_config.epic)
  withComponents ++
    (match epic_key with
     | some e => if e.isEmpty then [] else [("customfield_10014", JValue.jstr e)]
     | none => [])

/-- The mutable state of the LangGraph workflow (`AgentState.__init__`). -/
structure AgentState where
  stories : List Story
  current_story : Option Story
  expanded_story : Option String
  jira_issue : Option JDict
  error : Option String

/-- The fresh state built at the start of `process_stories`. -/
def AgentState.init : AgentState :=
  { stories := [], current_story := none, expanded_story := none,
    jira_issue := none, error := none }

/-- Collaborator calls observed during a run: completion-client invocations and
outbound tracker create (write) calls. -/
structure Trace where
  llmCalls : List Story
  createCalls : List JDict

/-- The empty trace. -/
def Trace.empty : Trace := { llmCalls := [], createCalls := [] }

/-- Trace concatenation. -/
def Trace.append (a b : Trace) : Trace :=
  { llmCalls := a.llmCalls ++ b.llmCalls, createCalls := a.createCalls ++ b.createCalls }

/-- The agent's environment: the loaded configuration, the dry-run flag, the
two network collaborators as oracles, and the environment-provided settings
used by `_prepare_issue_data` and `create_issue`. -/
structure Env where
  config : Config
  dry_run : Bool
  llm : Story → Except String String
  remote : JDict → Except String RemoteIssue
  jira_project_key : String
  jira_url : String

/-- `JiraAgent._load_stories`: populate the queue from the configuration. -/
def load_stories (env : Env) (s : AgentState) : AgentState × Trace :=
  ({ s with stories := env.config.stories }, Trace.empty)

/-- `JiraAgent._process_story`: pop the head of the queue as the current
story; a no-op when the queue is empty (no other field is touched). -/
def process_story (s : AgentState) : AgentState × Trace :=
  match s.stories with
  | [] => (s, Trace.empty)
  | st :: rest => ({ s with stories := rest, current_story := some st }, Trace.empty)

/-- `JiraAgent._expand_story`: with no (truthy) current story, record an error;
otherwise call the completion client on the rendered prompt and store the
result, or record the wrapped exception text on failure. -/
def expand_story (env : Env) (s : AgentState) : AgentState × Trace :=
  if !pyTruthyStory s.current_story then
    ({ s with error := some "No current story to expand" }, Trace.empty)
  else
    match s.current_story with
    | some st =>
      match env.llm st with
      | Except.ok text =>
        ({ s with expanded_story := some text }, { llmCalls := [st], createCalls := [] })
      | Except.error e =>
        ({ s with error := some ("Error expanding story: " ++ e) },
         { llmCalls := [st], createCalls := [] })
    | none => (s, Trace.empty)

/-- The fixed placeholder issue recorded in dry-run mode:
`{"key": "DRY-RUN-123", "dry_run": True}`. -/
def dryRunIssue : JDict := [("key", JValue.jstr "DRY-RUN-123"), ("dry_run", JValue.jbool true)]

/-- `JiraAgent._create_jira_issue`: a no-op when an error is already recorded;
an error when the expanded story or current story is missing (Python-falsy);
otherwise derive the payload and either record the dry-run placeholder or call
the tracker client, recording the issue or the wrapped exception text. -/
def create_jira_issue (env : Env) (s : AgentState) : AgentState × Trace :=
  if pyTruthyStr s.error then (s, Trace.empty)
  else if !pyTruthyStr s.expanded_story || !pyTruthyStory s.current_story then
    ({ s with error := some "Missing expanded story or current story" }, Trace.empty)
  else
    match s.current_story, s.expanded_story with
    | some st, some text =>
      let issue_data := prepare_issue_data env.jira_project_key env.config.global_config st text
      if env.dry_run then
        ({ s with jira_issue := some dryRunIssue }, Trace.empty)
      else
        match create_issue env.remote env.jira_url issue_data with
        | (Except.ok issue, calls) =>
          ({ s with jira_issue := some issue }, { llmCalls := [], createCalls := calls })
        | (Except.error e, calls) =>
          ({ s with error := some ("Error creating JIRA issue: " ++ e) },
           { llmCalls := [], createCalls := calls })
    | _, _ => (s, Trace.empty)

/-- `JiraAgent._handle_error`: when an error is recorded, clear the error and
all per-story fields together; otherwise a no-op. -/
def handle_error (s : AgentState) : AgentState × Trace :=
  if pyTruthyStr s.error then
    ({ s with error := none, current_story := none, expanded_story := none,
              jira_issue := none }, Trace.empty)
  else (s, Trace.empty)

/-- The five LangGraph nodes added by `JiraAgent._build_graph`. -/
inductive Node where
  | load_stories
  | process_story
  | expand_story
  | create_jira_issue
  | handle_error
deriving DecidableEq

/-- The exact `add_edge` wiring of `_build_graph`.  Every edge is
unconditional; every node has a successor (no node routes to END), and no
edge targets `handle_error`. -/
def nextNode : Node → Node
  | Node.load_stories => Node.process_story
  | Node.process_story => Node.expand_story
  | Node.expand_story => Node.create_jira_issue
  | Node.create_jira_issue => Node.process_story
  | Node.handle_error => Node.process_story

/-- Execute one node's function on the state. -/
def step (env : Env) : Node → AgentState → AgentState × Trace
  | Node.load_stories, s => load_stories env s
  | Node.process_story, s => process_story s
  | Node.expand_story, s => expand_story env s
  | Node.create_jira_issue, s => create_jira_issue env s
  | Node.handle_error, s => handle_error s

/-- Run the compiled graph from a node, with LangGraph's recursion limit as
fuel: each unit of fuel executes one node, then control follows `nextNode`.
Exhausted fuel is LangGraph's `GraphRecursionError` (`Except.error ()`),
which `process_stories` re-raises; the accumulated trace is kept. -/
def runFrom (env : Env) : Nat → Node → AgentState → Trace → Except Unit AgentState × Trace
  | 0, _, _, t => (Except.error (), t)
  | Nat.succ fuel, n, s, t =>
    let (s', evs) := step env n s
    runFrom env fuel (nextNode n) s' (t.append evs)

/-- A full `process_stories` run: fresh state, entry point `load_stories`. -/
def runAgent (env : Env) (recursion_limit : Nat) : Except Unit AgentState × Trace :=
  runFrom env recursion_limit Node.load_stories AgentState.init Trace.empty

/-- The node about to execute, the state, and the trace after `k` executed
nodes of a run (for inspecting intermediate states of the workflow). -/
def iterN (env : Env) : Nat → Node × AgentState × Trace
  | 0 => (Node.load_stories, AgentState.init, Trace.empty)
  | Nat.succ k =>
    let (n, s, t) := iterN env k
    let (s', evs) := step env n s
    (nextNode n, s', t.append evs)

/-! ### Completion client (`OpenAIClient.generate_completion`) -/

/-- The per-call override applied to `client.max_tokens`: a supplied value is
written only when it is Python-truthy (`if max_tokens:`), i.e. non-zero. -/
def effectiveMaxTokens (client_max : Nat) (mt : Option Nat) : Nat :=
  match mt with
  | some m => if m ≠ 0 then m else client_max
  | none => client_max

/-- `OpenAIClient.generate_completion`, observed on the configured
`max_tokens` value: the result of the generation call, paired with the value
of `client.max_tokens` after the call returns or raises.  The restore line
sits after the generation call inside the `try` block, so it only runs when
the call succeeds; an exception propagates from the `except` block with the
override still in place. -/
def generate_completion (client_max : Nat) (mt : Option Nat)
    (oracle : Except String String) : Except String String × Nat :=
  let applied := match mt with
    | some m => if m ≠ 0 then m else client_max
    | none => client_max
  match oracle with
  | Except.ok text => (Except.ok text, client_max)
  | Except.error e => (Except.error e, applied)

/-! ### Helper lemmas -/

lemma jget_append (d1 d2 : JDict) (key : String) :
    jget (d1 ++ d2) key =
      (match jget d1 key with
       | some v => some v
       | none => jget d2 key) := by
  induction d1 with
  | nil => rfl
  | cons kv rest ih =>
    obtain ⟨k, v⟩ := kv
    by_cases h : k = key <;> simp [jget, h, ih]

lemma Trace.append_empty (t : Trace) : t.append Trace.empty = t := by
  simp [Trace.append, Trace.empty]

lemma Trace.append_createCalls (a b : Trace) :
    (a.append b).createCalls = a.createCalls ++ b.createCalls := rfl

/-! ### Claim C4 -/

/-- The labels precedence exactly as the claim words it: the story's list when
non-empty, else the global list when non-empty, else omitted. -/
def labelsPerClaim (story : Story) (g : GlobalDefaults) : Option (List String) :=
  let sl := story.labels.getD []
  if !sl.isEmpty then some sl
  else
    let gl := g.labels.getD []
    if !gl.isEmpty then some gl else none

/-- The labels list the code actually resolves: the story's `labels` value
whenever the key is present (even an empty list blocks the fallback, because
`dict.get` only falls back on an absent key), else the global value, else
empty. -/
def resolvedLabels (story : Story) (g : GlobalDefaults) : List String :=
  story.labels.getD (g.labels.getD [])

/-- Same resolution for components. -/
def resolvedComponents (story : Story) (g : GlobalDefaults) : List String :=
  story.components.getD (g.components.getD [])

/-- Claim C4 counterexample: a story whose `labels` key is present with an
empty list, with non-empty global labels.  The claim demands the global list
(`labelsPerClaim` = `some ["backend"]`), but `_prepare_issue_data` resolves
the story's empty list and omits the key entirely. -/
theorem labels_claim_counterexample :
    labelsPerClaim { title := some "T", labels := some [] }
        { labels := some ["backend"] } = some ["backend"] ∧
    jget (prepare_issue_data "PROJ" { labels := some ["backend"] }
        { title := some "T", labels := some [] } "desc") "labels" = none := by
  exact ⟨rfl, rfl⟩

/-- Claim C4 amended: labels come from the story's `labels` key when present
(even when empty — an explicit empty list blocks the global fallback), else
from the global defaults; the `labels` key appears in the payload exactly when
the resolved list is non-empty, so an empty list field never appears.
Components follow the same resolution, each name wrapped as a
`{name: string}` dictionary, with the key omitted when the resolved list is
empty. -/
theorem labels_components_derivation (jpk : String) (g : GlobalDefaults)
    (story : Story) (content : String) :
    jget (prepare_issue_data jpk g story content) "labels" =
      (if (resolvedLabels story g).isEmpty then none
       else some (JValue.jlist ((resolvedLabels story g).map JValue.jstr))) ∧
    jget (prepare_issue_data jpk g story content) "components" =
      (if (resolvedComponents story g).isEmpty then none
       else some (JValue.jlist ((resolvedComponents story g).map
         (fun c => JValue.jdict [("name", JValue.jstr c)])))) := by
  unfold prepare_issue_data resolvedLabels resolvedComponents
  constructor <;>
  · simp only [jget_append]
    by_cases hl : (story.labels.getD (g.labels.getD [])).isEmpty <;>
      by_cases hc : (story.components.getD (g.components.getD [])).isEmpty <;>
        rcases he : story.epic.orElse (fun _ => g.epic) with _ | e <;>
          simp [jget, hl, hc, he] <;>
            by_cases hee : e.isEmpty <;> simp [jget, hee]

/-! ### Claim C5 -/

/-- The project precedence as the spec words it: the story's `project` key
when present, else the global `project`, else the configured fallback key. -/
def projectPerSpec (story : Story) (g : GlobalDefaults) (fallback : String) : String :=
  story.project.getD (g.project.getD fallback)

/-- A remote tracker oracle that always succeeds. -/
def remoteAlwaysOk : JDict → Except String RemoteIssue :=
  fun _ => Except.ok { key := "PROJ-1", id := "10001" }

/-- Claim C5 counterexample: a story with `project: ""`.  The resolved project
key is the empty string, yet derivation succeeds, `_validate_issue_data`
passes (it only checks key presence and dictionary shape, never that the
value is non-empty), and `create_issue` proceeds to the network call — one
outbound call is made with an empty project, contradicting the claim that an
empty resolved project makes derivation or submission fail. -/
theorem empty_project_counterexample :
    jget (prepare_issue_data "PROJ" { project := some "GLOB" }
        { title := some "T", project := some "" } "desc") "project"
      = some (JValue.jdict [("key", JValue.jstr "")]) ∧
    validate_issue_data (prepare_issue_data "PROJ" { project := some "GLOB" }
        { title := some "T", project := some "" } "desc") = none ∧
    (create_issue remoteAlwaysOk "url" (prepare_issue_data "PROJ"
        { project := some "GLOB" } { title := some "T", project := some "" }
        "desc")).2.length = 1 := by
  exact ⟨rfl, rfl, rfl⟩

/-- Claim C5 amended: the derived project is the story's `project`, else the
global `project`, else the statically configured fallback key — but an empty
resolved value is not rejected: every payload built by `_prepare_issue_data`
passes `_validate_issue_data` (which checks only presence and shape), so the
request is submitted even with an empty project key; any failure would come
from the remote tracker. -/
theorem project_derivation_and_validation (jpk : String) (g : GlobalDefaults)
    (story : Story) (content : String) :
    jget (prepare_issue_data jpk g story content) "project"
      = some (JValue.jdict [("key", JValue.jstr (projectPerSpec story g jpk))]) ∧
    validate_issue_data (prepare_issue_data jpk g story content) = none := by
  unfold prepare_issue_data projectPerSpec validate_issue_data requiredFields
  by_cases hl : (story.labels.getD (g.labels.getD [])).isEmpty <;>
    by_cases hc : (story.components.getD (g.components.getD [])).isEmpty <;>
      rcases he : story.epic.orElse (fun _ => g.epic) with _ | e <;>
        simp [jget_append, jget, hl, hc, he, List.find?]

/-! ### Claim C6 -/

/-- Claim C6: a payload missing one of the required fields `project`,
`summary`, `issuetype` makes `create_issue` fail fast: the first missing field
(in the loop order of `_validate_issue_data`) is absent from the payload and
a member of the required list, the returned error is the structured
`ValueError` text naming that field, and the network-call list is empty — no
issue is created and no network call is made. -/
theorem create_issue_missing_field_fails_fast
    (remote : JDict → Except String RemoteIssue) (url : String) (d : JDict)
    (f : String)
    (h : requiredFields.find? (fun g => (jget d g).isNone) = some f) :
    jget d f = none ∧ f ∈ requiredFields ∧
    create_issue remote url d = (Except.error (missingFieldMsg f), []) := by
  refine ⟨?_, List.mem_of_find?_eq_some h, ?_⟩
  · have := List.find?_some h
    simpa [Option.isNone_iff_eq_none] using this
  · simp [create_issue, validate_issue_data, h]

/-- Witness for claim C6 at a payload containing only a summary: the first
missing required field is `project`. -/
theorem create_issue_missing_field_witness :
    jget [("summary", JValue.jstr "s")] "project" = none ∧
    "project" ∈ requiredFields ∧
    create_issue remoteAlwaysOk "url" [("summary", JValue.jstr "s")]
      = (Except.error (missingFieldMsg "project"), []) :=
  create_issue_missing_field_fails_fast remoteAlwaysOk "url"
    [("summary", JValue.jstr "s")] "project" rfl

/-! ### Claim C7 -/

/-- Claim C7: the prompt builder is total and deterministic (a Lean function
of the story alone), and on a story with no title, description or priority and
absent-or-empty labels and components, the rendered string is the fixed
template with the documented defaults substituted — in particular the literal
`"None"` sits in the labels slot (right after `"\nLabels: "`) and in the
components slot (right after `"\nComponents: "`). -/
theorem expansion_prompt_defaults (story : Story)
    (ht : story.title = none) (hd : story.description = none)
    (hp : story.priority = none)
    (hl : story.labels = none ∨ story.labels = some [])
    (hc : story.components = none ∨ story.components = some []) :
    generate_expansion_prompt story =
      promptSeg0 ++ "Untitled Story" ++ promptSeg1 ++ "No description provided" ++
      promptSeg2 ++ "Medium" ++ promptSeg3 ++ "None" ++ promptSeg4 ++ "None" ++
      promptSeg5 := by
  rcases hl with hl | hl <;> rcases hc with hc | hc <;>
    (simp only [generate_expansion_prompt, joinOrNone, ht, hd, hp, hl, hc]
     rfl)

/-- Witness for claim C7 at the story with no keys at all. -/
theorem expansion_prompt_defaults_witness :
    generate_expansion_prompt {} =
      promptSeg0 ++ "Untitled Story" ++ promptSeg1 ++ "No description provided" ++
      promptSeg2 ++ "Medium" ++ promptSeg3 ++ "None" ++ promptSeg4 ++ "None" ++
      promptSeg5 :=
  expansion_prompt_defaults {} rfl rfl rfl (Or.inl rfl) (Or.inl rfl)

/-! ### Claim C9 -/

/-- Claim C9 counterexample: a client configured with `max_tokens = 1000`, a
single call overriding it to 50, and a failing generation call.  After the
call the configured value is 50, not the prior 1000 — the restore line is
skipped when the call raises. -/
theorem max_tokens_not_restored_on_failure :
    (generate_completion 1000 (some 50) (Except.error "Request timed out")).2 = 50 ∧
    (50 : Nat) ≠ 1000 := by
  exact ⟨rfl, by decide⟩

/-- Claim C9 amended: the prior `max_tokens` value is restored after a
successful call; when the call fails, the restore is skipped and the
configured value is whatever the override wrote (the overriding value when one
was supplied and non-zero, the prior value otherwise). -/
theorem max_tokens_restore (cm : Nat) (mt : Option Nat) (r : Except String String) :
    (∀ t, r = Except.ok t → (generate_completion cm mt r).2 = cm) ∧
    (∀ e, r = Except.error e →
      (generate_completion cm mt r).2 = effectiveMaxTokens cm mt) := by
  constructor
  · intro t hr
    subst hr
    rfl
  · intro e hr
    subst hr
    rfl

/-- Witness for claim C9 amended: restoration after a successful overridden
call, and the persisting override after a failing one. -/
theorem max_tokens_restore_witness :
    (generate_completion 1000 (some 50) (Except.ok "text")).2 = 1000 ∧
    (generate_completion 1000 (some 7) (Except.error "boom")).2
      = effectiveMaxTokens 1000 (some 7) :=
  ⟨(max_tokens_restore 1000 (some 50) (Except.ok "text")).1 "text" rfl,
   (max_tokens_restore 1000 (some 7) (Except.error "boom")).2 "boom" rfl⟩

/-! ### Concrete environments for the run-level claims -/

/-- A story with only a title. -/
def storyS1 : Story := { title := some "S1" }

/-- A second story with only a title. -/
def storyS2 : Story := { title := some "S2" }

/-- A third story with only a title. -/
def storyS3 : Story := { title := some "S3" }

/-- Three stories; the completion call fails exactly for `storyS2`; the
tracker always succeeds. -/
def envC1 : Env := {
  config := { stories := [storyS1, storyS2, storyS3] },
  dry_run := false,
  llm := fun st =>
    match st.title with
    | some "S2" => Except.error "boom"
    | _ => Except.ok "expanded text",
  remote := remoteAlwaysOk,
  jira_project_key := "PROJ",
  jira_url := "https://jira.example.com" }

/-- Two stories; expansion always succeeds; the tracker create call fails
exactly for the payload whose summary is `S1`. -/
def envC2 : Env := { envC1 with
  config := { stories := [storyS1, storyS2] },
  llm := fun _ => Except.ok "expanded",
  remote := fun d =>
    match jget d "summary" with
    | some (JValue.jstr "S1") => Except.error "HTTP 500"
    | _ => Except.ok { key := "PROJ-2", id := "10002" } }

/-- An empty story list. -/
def envC3 : Env := { envC1 with config := { stories := [] } }

/-- One story, dry-run mode. -/
def envDry : Env := { envC1 with
  config := { stories := [storyS1] },
  dry_run := true,
  llm := fun _ => Except.ok "expanded text" }

/-! ### Claim C1 -/

/-- Claim C1, refuted on the code: with stories `S1, S2, S3` and the expansion
call failing exactly for `S2`, only `S1` ever receives a tracker create call.
`S3` reaches the submit step but is skipped there, because no graph edge
routes into `handle_error`, so the error recorded for `S2` is never cleared
and `_create_jira_issue` keeps returning early.  Moreover `S3`'s expansion is
re-attempted on every further loop iteration (the completion-call trace is
`S1, S2, S3, S3, ...`), and the run never completes: with LangGraph's default
recursion limit of 25 it aborts with a `GraphRecursionError`. -/
theorem expansion_failure_cascades_run :
    (runAgent envC1 25).1 = Except.error () ∧
    (runAgent envC1 25).2.createCalls.map (fun d => jget d "summary")
      = [some (JValue.jstr "S1")] ∧
    (runAgent envC1 25).2.llmCalls.map Story.title
      = [some "S1", some "S2", some "S3", some "S3", some "S3", some "S3",
         some "S3", some "S3"] := by
  exact ⟨rfl, rfl, rfl⟩

/-! ### Claim C2 -/

/-- Claim C2, refuted on the code: with two stories and the tracker create
call failing for `S1`, after five executed nodes (load, dequeue `S1`, expand,
failed submit, dequeue `S2`) the next story `S2` is already current while the
failed story's error indicator and expanded content are still set —
`handle_error`, which would reset them together, is unreachable in the wired
graph. -/
theorem stale_error_at_next_dequeue :
    (iterN envC2 5).2.1.current_story = some storyS2 ∧
    (iterN envC2 5).2.1.error = some "Error creating JIRA issue: HTTP 500" ∧
    (iterN envC2 5).2.1.expanded_story = some "expanded" := by
  exact ⟨rfl, rfl, rfl⟩

/-! ### Claim C3 -/

lemma runFrom_succ (env : Env) (fuel : Nat) (n : Node) (s : AgentState) (t : Trace) :
    runFrom env (fuel + 1) n s t
      = runFrom env fuel (nextNode n) (step env n s).1 (t.append (step env n s).2) := rfl

lemma runFrom_no_stories (env : Env) (henv : env.config.stories = []) :
    ∀ (fuel : Nat) (n : Node) (s : AgentState) (t : Trace),
      s.stories = [] → s.current_story = none →
      runFrom env fuel n s t = (Except.error (), t) := by
  intro fuel
  induction fuel with
  | zero => intro n s t _ _; rfl
  | succ k ih =>
    intro n s t hs hc
    cases n with
    | load_stories =>
      have h1 : (step env Node.load_stories s).1
          = { s with stories := env.config.stories } := rfl
      have h2 : (step env Node.load_stories s).2 = Trace.empty := rfl
      rw [runFrom_succ, h1, h2, Trace.append_empty]
      exact ih _ _ _ (by simp [henv]) hc
    | process_story =>
      have h1 : (step env Node.process_story s).1 = s := by
        simp [step, process_story, hs]
      have h2 : (step env Node.process_story s).2 = Trace.empty := by
        simp [step, process_story, hs]
      rw [runFrom_succ, h1, h2, Trace.append_empty]
      exact ih _ _ _ hs hc
    | expand_story =>
      have h1 : (step env Node.expand_story s).1
          = { s with error := some "No current story to expand" } := by
        simp [step, expand_story, pyTruthyStory, hc]
      have h2 : (step env Node.expand_story s).2 = Trace.empty := by
        simp [step, expand_story, pyTruthyStory, hc]
      rw [runFrom_succ, h1, h2, Trace.append_empty]
      exact ih _ _ _ hs hc
    | create_jira_issue =>
      by_cases he : pyTruthyStr s.error = true
      · have h1 : (step env Node.create_jira_issue s).1 = s := by
          simp [step, create_jira_issue, he]
        have h2 : (step env Node.create_jira_issue s).2 = Trace.empty := by
          simp [step, create_jira_issue, he]
        rw [runFrom_succ, h1, h2, Trace.append_empty]
        exact ih _ _ _ hs hc
      · have h1 : (step env Node.create_jira_issue s).1
            = { s with error := some "Missing expanded story or current story" } := by
          simp [step, create_jira_issue, he, pyTruthyStory, hc]
        have h2 : (step env Node.create_jira_issue s).2 = Trace.empty := by
          simp [step, create_jira_issue, he, pyTruthyStory, hc]
        rw [runFrom_succ, h1, h2, Trace.append_empty]
        exact ih _ _ _ hs hc
    | handle_error =>
      by_cases he : pyTruthyStr s.error = true
      · have h1 : (step env Node.handle_error s).1
            = { s with error := none, current_story := none,
                       expanded_story := none, jira_issue := none } := by
          simp [step, handle_error, he]
        have h2 : (step env Node.handle_error s).2 = Trace.empty := by
          simp [step, handle_error, he]
        rw [runFrom_succ, h1, h2, Trace.append_empty]
        exact ih _ _ _ hs rfl
      · have h1 : (step env Node.handle_error s).1 = s := by
          simp [step, handle_error, he]
        have h2 : (step env Node.handle_error s).2 = Trace.empty := by
          simp [step, handle_error, he]
        rw [runFrom_succ, h1, h2, Trace.append_empty]
        exact ih _ _ _ hs hc

/-- Claim C3, refuted on the code: with an empty story list the workflow never
terminates — for every recursion limit the run ends in a
`GraphRecursionError` (`Except.error ()`), never in a successful final state,
because every node's single unconditional edge leads back into the
process → expand → create cycle and no edge leads to END.  The part of the
claim about the collaborators is true: the trace stays empty, so the
completion client and the tracker client are never invoked. -/
theorem empty_config_run_never_terminates :
    ∀ recursion_limit : Nat,
      runAgent envC3 recursion_limit = (Except.error (), Trace.empty) :=
  fun recursion_limit =>
    runFrom_no_stories envC3 rfl recursion_limit Node.load_stories
      AgentState.init Trace.empty rfl rfl

/-! ### Claim C8 -/

lemma step_dry_no_create (env : Env) (hdry : env.dry_run = true)
    (n : Node) (s : AgentState) :
    (step env n s).2.createCalls = [] := by
  cases n <;>
    simp only [step, load_stories, process_story, expand_story,
      create_jira_issue, handle_error] <;>
    (repeat' split) <;>
      simp_all [Trace.empty]

lemma runFrom_dry_no_create (env : Env) (hdry : env.dry_run = true) :
    ∀ (fuel : Nat) (n : Node) (s : AgentState) (t : Trace),
      (runFrom env fuel n s t).2.createCalls = t.createCalls := by
  intro fuel
  induction fuel with
  | zero => intro n s t; rfl
  | succ k ih =>
    intro n s t
    show (runFrom env k (nextNode n) (step env n s).1
            (t.append (step env n s).2)).2.createCalls = _
    rw [ih, Trace.append_createCalls, step_dry_no_create env hdry, List.append_nil]

/-- Claim C8: in dry-run mode, from any submit-ready state (no recorded
error, a truthy current story and truthy expanded content) the submit step
records exactly the fixed placeholder issue `{"key": "DRY-RUN-123",
"dry_run": True}` and changes nothing else in the state, making no tracker
call; and over a whole run with any configuration and any recursion limit,
the outbound-write-call trace of a dry-run is empty. -/
theorem dry_run_no_write_calls (env : Env) (s : AgentState) (fuel : Nat)
    (hdry : env.dry_run = true)
    (herr : pyTruthyStr s.error = false)
    (hcur : ∃ st, s.current_story = some st ∧ st.isBlankDict = false)
    (hexp : ∃ text, s.expanded_story = some text ∧ text.isEmpty = false) :
    create_jira_issue env s = ({ s with jira_issue := some dryRunIssue }, Trace.empty) ∧
    (runAgent env fuel).2.createCalls = [] := by
  obtain ⟨st, hst, hbl⟩ := hcur
  obtain ⟨tx, htx, hte⟩ := hexp
  have hexp' : pyTruthyStr (some tx) = true := by
    simp [pyTruthyStr, hte]
  have hcur' : pyTruthyStory (some st) = true := by
    simp [pyTruthyStory, hbl]
  refine ⟨?_, ?_⟩
  · simp [create_jira_issue, herr, hst, htx, hexp', hcur', hdry]
  · have h := runFrom_dry_no_create env hdry fuel Node.load_stories
      AgentState.init Trace.empty
    simpa [runAgent, Trace.empty] using h

/-- Witness for claim C8: the dry-run environment with one story, at the
submit-ready state for that story, with LangGraph's default recursion limit. -/
theorem dry_run_no_write_calls_witness :
    create_jira_issue envDry
        { stories := [], current_story := some storyS1,
          expanded_story := some "expanded text", jira_issue := none,
          error := none }
      = ({ stories := [], current_story := some storyS1,
           expanded_story := some "expanded text",
           jira_issue := some dryRunIssue, error := none }, Trace.empty) ∧
    (runAgent envDry 25).2.createCalls = [] :=
  dry_run_no_write_calls envDry
    { stories := [], current_story := some storyS1,
      expanded_story := some "expanded text", jira_issue := none,
      error := none } 25 rfl rfl ⟨storyS1, rfl, rfl⟩ ⟨"expanded text", rfl, rfl⟩

/-! ### Claim C10 -/

/-- Claim C10: whenever the error indicator holds a (non-empty, hence
Python-truthy) message, the submit step is a no-op: it returns the state
unchanged and the trace is empty — no tracker call is made and no issue data
is derived, whatever the rest of the state (a fresh current story and a
successful expansion included). -/
theorem submit_noop_on_error (env : Env) (s : AgentState) (e : String)
    (h1 : s.error = some e) (h2 : e.isEmpty = false) :
    create_jira_issue env s = (s, Trace.empty) := by
  simp [create_jira_issue, pyTruthyStr, h1, h2]

/-- Witness for claim C10: a state carrying a recorded error together with a
freshly dequeued story and expanded content. -/
theorem submit_noop_on_error_witness :
    create_jira_issue envC1
        { stories := [], current_story := some storyS3,
          expanded_story := some "expanded text", jira_issue := none,
          error := some "Error expanding story: boom" }
      = ({ stories := [], current_story := some storyS3,
           expanded_story := some "expanded text", jira_issue := none,
           error := some "Error expanding story: boom" }, Trace.empty) :=
  submit_noop_on_error envC1
    { stories := [], current_story := some storyS3,
      expanded_story := some "expanded text", jira_issue := none,
      error := some "Error expanding story: boom" }
    "Error expanding story: boom" rfl rfl

end AgentGraphJira
